import Mathlib

/-!
Shallow embedding of the `qaf` speaker-control program (Rust sources
`src/main.rs`, `src/speaker.rs`): the input-source mapping, the device
client (HTTP/JSON protocol adapter), the controller command loop, the
background status poller and mDNS discovery, together with theorems about
their behaviour.

HTTP interactions are modelled by an oracle `dev : Request → HttpOutcome`
describing how the device answers each request; functions return both
their result and the trace of requests they issued.
-/

namespace Qaf

/-- The abstract input-source enumeration (`InputSource` in `src/main.rs`,
variants USB, WiFi, Bluetooth, Optical). -/
inductive InputSource
  | USB
  | WiFi
  | Bluetooth
  | Optical
  deriving DecidableEq, Repr

/-- `InputSource::to_kef_source` (`src/main.rs` lines 54-61): maps each
variant to the device wire string; KEF uses "tv" for the optical input. -/
def InputSource.to_kef_source : InputSource → String
  | .USB => "usb"
  | .WiFi => "wifi"
  | .Bluetooth => "bluetooth"
  | .Optical => "tv"

/-- `InputSource::from_kef_source` (`src/main.rs` lines 73-81): partial
inverse from wire strings; every string outside the four known identifiers
falls to the wildcard arm returning `None`.  The Rust `match` on string
literals is translated as the equivalent chain of equality tests. -/
def InputSource.from_kef_source (s : String) : Option InputSource :=
  if s = "usb" then some .USB
  else if s = "wifi" then some .WiFi
  else if s = "bluetooth" then some .Bluetooth
  else if s = "tv" then some .Optical
  else none

/-- The set of device source identifiers known to the mapping: exactly the
strings produced by `to_kef_source` and accepted by `from_kef_source`. -/
def knownKefSources : List String := ["usb", "wifi", "bluetooth", "tv"]

/-- A JSON value, as produced by `serde_json::Value`. -/
inductive Json
  | null
  | bool (b : Bool)
  | num (n : Int)
  | str (s : String)
  | arr (elems : List Json)
  | obj (entries : List (String × Json))

/-- `serde_json` numeric indexing `value[i]`: element `i` of an array,
`null` on out-of-range or on any non-array value. -/
def Json.index : Json → Nat → Json
  | .arr xs, i => (xs.get? i).getD .null
  | _, _ => .null

/-- `serde_json` key indexing `value["key"]`: the entry of an object,
`null` when the key is absent or the value is not an object. -/
def Json.key : Json → String → Json
  | .obj kvs, k => ((kvs.find? (fun kv => kv.1 = k)).map (fun kv => kv.2)).getD .null
  | _, _ => .null

/-- `serde_json::Value::as_str`: `Some` exactly on JSON strings. -/
def Json.as_str : Json → Option String
  | .str s => some s
  | _ => none

/-- An HTTP request issued by the program, identified by the endpoint
(`getData` or `setData`), the settings path, and — for writes — the pairs
of the JSON envelope passed as the `value` query parameter. -/
structure Request where
  endpoint : String
  path : String
  value : Option (List (String × String))
  deriving DecidableEq, Repr

/-- Errors of one HTTP exchange: the transport layer (`send()`) failing, or
the response body failing to parse as JSON (`response.json()`). -/
inductive DcError
  | transport
  | decode
  deriving DecidableEq, Repr

/-- How the device answers one request: an error at the transport or JSON
layer, or a successfully parsed JSON body. -/
inductive HttpOutcome
  | err (e : DcError)
  | ok (j : Json)

/-- The device oracle: the outcome of each request the program may issue. -/
def Device : Type := Request → HttpOutcome

/-- The read of the power-status path
(`GET {base_url}/api/getData?path=settings:/kef/host/speakerStatus&roles=value`). -/
def statusRequest : Request :=
  { endpoint := "getData", path := "settings:/kef/host/speakerStatus", value := none }

/-- The read of the input-source path
(`GET {base_url}/api/getData?path=settings:/kef/play/physicalSource&roles=value`). -/
def sourceRequest : Request :=
  { endpoint := "getData", path := "settings:/kef/play/physicalSource", value := none }

/-- The JSON envelope `{"type": "kefPhysicalSource", "kefPhysicalSource": v}`
carried by every write. -/
def writeEnvelope (v : String) : List (String × String) :=
  [("type", "kefPhysicalSource"), ("kefPhysicalSource", v)]

/-- The write request issued by `set_input` / `power_on` / `power_off`:
`GET {base_url}/api/setData?path=settings:/kef/play/physicalSource&roles=value&value=<envelope>`. -/
def writeRequest (v : String) : Request :=
  { endpoint := "setData", path := "settings:/kef/play/physicalSource",
    value := some (writeEnvelope v) }

/-- `SpeakerStatus` (`src/main.rs` lines 40-43): power is the raw device
string ("standby" / "powerOn", or the sentinel "unknown"). -/
structure SpeakerStatus where
  power : String
  source : Option InputSource
  deriving DecidableEq, Repr

/-- Decoding of the power read: `power_json[0]["kefSpeakerStatus"].as_str().unwrap_or("unknown")`
(`src/speaker.rs` lines 267-270). -/
def decodePower (j : Json) : String :=
  (((j.index 0).key "kefSpeakerStatus").as_str).getD "unknown"

/-- Decoding of the source read: `source_json[0]["kefPhysicalSource"].as_str().unwrap_or("")`
(`src/speaker.rs` line 292). -/
def decodeSourceStr (j : Json) : String :=
  (((j.index 0).key "kefPhysicalSource").as_str).getD ""

/-- `SpeakerController::get_speaker_status` (`src/speaker.rs` lines 247-300):
reads the power-status path; any transport or JSON-parse error propagates via
`?`.  If and only if the decoded power string is "powerOn" it issues a second
read of the input-source path (errors again propagate) and decodes the source
through `from_kef_source`; otherwise the source is `None`.  Returns the result
together with the trace of requests issued. -/
def get_speaker_status (dev : Device) :
    Except DcError SpeakerStatus × List Request :=
  match dev statusRequest with
  | .err e => (.error e, [statusRequest])
  | .ok power_json =>
    let power := decodePower power_json
    if power = "powerOn" then
      match dev sourceRequest with
      | .err e => (.error e, [statusRequest, sourceRequest])
      | .ok source_json =>
        (.ok { power := power,
               source := InputSource.from_kef_source (decodeSourceStr source_json) },
         [statusRequest, sourceRequest])
    else
      (.ok { power := power, source := none }, [statusRequest])

/-- Shape of `get_speaker_status` when the power read fails. -/
theorem get_speaker_status_of_err (dev : Device) (e : DcError)
    (hj : dev statusRequest = .err e) :
    get_speaker_status dev = (.error e, [statusRequest]) := by
  unfold get_speaker_status
  rw [hj]

/-- Shape of `get_speaker_status` when the power read succeeds with body `j`. -/
theorem get_speaker_status_of_ok (dev : Device) (j : Json)
    (hj : dev statusRequest = .ok j) :
    get_speaker_status dev =
      if decodePower j = "powerOn" then
        match dev sourceRequest with
        | .err e => (.error e, [statusRequest, sourceRequest])
        | .ok source_json =>
          (.ok { power := decodePower j,
                 source := InputSource.from_kef_source (decodeSourceStr source_json) },
           [statusRequest, sourceRequest])
      else (.ok { power := decodePower j, source := none }, [statusRequest]) := by
  unfold get_speaker_status
  rw [hj]

/-- `SpeakerController::set_input` (`src/speaker.rs` lines 159-187): one
`setData` write of the envelope carrying the mapped wire string to the
input-source path.  The response body is only required to parse as JSON
(`response.json().await?`); its content is not interpreted. -/
def set_input (dev : Device) (input : InputSource) :
    Except DcError Unit × List Request :=
  match dev (writeRequest input.to_kef_source) with
  | .err e => (.error e, [writeRequest input.to_kef_source])
  | .ok _ => (.ok (), [writeRequest input.to_kef_source])

/-- `SpeakerController::power_on` (`src/speaker.rs` lines 189-216): one
`setData` write of the fixed sentinel "powerOn" to the input-source path. -/
def power_on (dev : Device) : Except DcError Unit × List Request :=
  match dev (writeRequest "powerOn") with
  | .err e => (.error e, [writeRequest "powerOn"])
  | .ok _ => (.ok (), [writeRequest "powerOn"])

/-- `SpeakerController::power_off` (`src/speaker.rs` lines 218-245): one
`setData` write of the fixed sentinel "standby" to the input-source path. -/
def power_off (dev : Device) : Except DcError Unit × List Request :=
  match dev (writeRequest "standby") with
  | .err e => (.error e, [writeRequest "standby"])
  | .ok _ => (.ok (), [writeRequest "standby"])

/-- `set_input` always issues exactly its single write request. -/
theorem set_input_trace (dev : Device) (input : InputSource) :
    (set_input dev input).2 = [writeRequest input.to_kef_source] := by
  unfold set_input
  cases dev (writeRequest input.to_kef_source) <;> rfl

/-- `power_on` always issues exactly its single write request. -/
theorem power_on_trace (dev : Device) :
    (power_on dev).2 = [writeRequest "powerOn"] := by
  unfold power_on
  cases dev (writeRequest "powerOn") <;> rfl

/-- `power_off` always issues exactly its single write request. -/
theorem power_off_trace (dev : Device) :
    (power_off dev).2 = [writeRequest "standby"] := by
  unfold power_off
  cases dev (writeRequest "standby") <;> rfl

/-- Every request issued by `get_speaker_status` is a `getData` read, never a
write. -/
theorem get_speaker_status_trace_reads (dev : Device) :
    ∀ r ∈ (get_speaker_status dev).2, r.endpoint = "getData" := by
  intro r hr
  cases hj : dev statusRequest with
  | err e =>
      rw [get_speaker_status_of_err dev e hj] at hr
      simp only [List.mem_singleton] at hr
      rw [hr]; rfl
  | ok j =>
      rw [get_speaker_status_of_ok dev j hj] at hr
      by_cases hp : decodePower j = "powerOn"
      · rw [if_pos hp] at hr
        cases hs : dev sourceRequest <;>
          · rw [hs] at hr
            simp only [List.mem_cons, List.not_mem_nil, or_false] at hr
            rcases hr with hr | hr <;> (rw [hr]; rfl)
      · rw [if_neg hp] at hr
        simp only [List.mem_singleton] at hr
        rw [hr]; rfl

/-- A device that answers the power read with `[{"kefSpeakerStatus":"powerOn"}]`
and the source read with `[{"kefPhysicalSource":"wifi"}]`. -/
def devPowerOnWifi : Device := fun r =>
  if r = statusRequest then .ok (.arr [.obj [("kefSpeakerStatus", .str "powerOn")]])
  else if r = sourceRequest then .ok (.arr [.obj [("kefPhysicalSource", .str "wifi")]])
  else .err .transport

/-- A device whose power read succeeds with valid JSON `[{}]` that carries no
`kefSpeakerStatus` key. -/
def devMissingPowerKey : Device := fun r =>
  if r = statusRequest then .ok (.arr [.obj []]) else .err .transport

/-- A device on which every request fails at the transport layer. -/
def devAllTransportFail : Device := fun _ => .err .transport

/-- A device on which every request succeeds with the JSON body `null`. -/
def devAllOk : Device := fun _ => .ok .null

/-- A device that answers the power read with `[{"kefSpeakerStatus":"standby"}]`. -/
def devStandby : Device := fun r =>
  if r = statusRequest then .ok (.arr [.obj [("kefSpeakerStatus", .str "standby")]])
  else .err .transport

/-- A device reporting standby on the power read and answering every other
request (in particular the writes) with JSON `null`. -/
def devStandbyThenOk : Device := fun r =>
  if r = statusRequest then .ok (.arr [.obj [("kefSpeakerStatus", .str "standby")]])
  else .ok .null

/-- `SpeakerCommand` (`src/main.rs` lines 21-29), restricted to the five
variants the `src/speaker.rs` command loop handles (the enum's additional
`SpeakerDiscovered` variant is consumed only by the inline controller of
`src/main.rs` and by the routing task, and no claim concerns it).  The
`GetStatus` reply sender is modelled implicitly: the values passed to
`tx.send` appear in the step's output. -/
inductive SpeakerCommand
  | SetInput (input : InputSource)
  | GetStatus
  | PowerOn
  | PowerOff
  | PollUpdate (status : SpeakerStatus)
  deriving DecidableEq, Repr

/-- An observable event of one loop iteration: an HTTP exchange with the
device, or a `sleep` of the given number of milliseconds. -/
inductive Ev
  | http (r : Request)
  | sleepMs (n : Nat)
  deriving DecidableEq, Repr

/-- The observable outcome of servicing one command: the ordered events, the
values sent on the `GetStatus` reply channel, and whether the loop proceeds
to the next command. -/
structure StepResult where
  events : List Ev
  replies : List SpeakerStatus
  continues : Bool
  deriving DecidableEq, Repr

/-- `tokio::sync::oneshot::Sender::send`: synchronous and non-blocking;
returns the value back as an error when the receiver was dropped. -/
def oneshot_send (receiver_alive : Bool) (v : SpeakerStatus) :
    Except SpeakerStatus Unit :=
  if receiver_alive then .ok () else .error v

/-- One iteration of `SpeakerController::run` (`src/speaker.rs` lines
100-153), servicing a single command.  `reply_alive` models whether the
`GetStatus` reply receiver still exists; the loop discards the send result
(`let _ = tx.send(..)`), so the step's outcome does not depend on it.
For `SetInput`: the status probe runs first; only when it succeeds AND
reports "standby" is `power_on` issued, followed on success by a 500 ms
sleep; a failed `power_on` abandons the command (`continue`); in every other
case — probe failed, or probe succeeded with non-standby power, or power-up
completed — `set_input` is issued, its own failure being only logged. -/
def run_step (dev : Device) (reply_alive : Bool) : SpeakerCommand → StepResult
  | .SetInput input =>
      match (get_speaker_status dev).1 with
      | .ok status =>
          if status.power = "standby" then
            match (power_on dev).1 with
            | .error _ =>
                { events := ((get_speaker_status dev).2 ++ (power_on dev).2).map .http,
                  replies := [], continues := true }
            | .ok _ =>
                { events := ((get_speaker_status dev).2 ++ (power_on dev).2).map .http
                    ++ [.sleepMs 500] ++ ((set_input dev input).2).map .http,
                  replies := [], continues := true }
          else
            { events := ((get_speaker_status dev).2 ++ (set_input dev input).2).map .http,
              replies := [], continues := true }
      | .error _ =>
          { events := ((get_speaker_status dev).2 ++ (set_input dev input).2).map .http,
            replies := [], continues := true }
  | .GetStatus =>
      match (get_speaker_status dev).1 with
      | .ok status =>
          let _ := oneshot_send reply_alive status
          { events := (get_speaker_status dev).2.map .http,
            replies := [status], continues := true }
      | .error _ =>
          let _ := oneshot_send reply_alive { power := "unknown", source := none }
          { events := (get_speaker_status dev).2.map .http,
            replies := [{ power := "unknown", source := none }], continues := true }
  | .PowerOn =>
      { events := (power_on dev).2.map .http, replies := [], continues := true }
  | .PowerOff =>
      { events := (power_off dev).2.map .http, replies := [], continues := true }
  | .PollUpdate _ =>
      { events := [], replies := [], continues := true }

/-- Unfolding of the `SetInput` arm of `run_step`. -/
theorem run_step_setInput_eq (dev : Device) (b : Bool) (input : InputSource) :
    run_step dev b (.SetInput input) =
      match (get_speaker_status dev).1 with
      | .ok status =>
          if status.power = "standby" then
            match (power_on dev).1 with
            | .error _ =>
                { events := ((get_speaker_status dev).2 ++ (power_on dev).2).map .http,
                  replies := [], continues := true }
            | .ok _ =>
                { events := ((get_speaker_status dev).2 ++ (power_on dev).2).map .http
                    ++ [.sleepMs 500] ++ ((set_input dev input).2).map .http,
                  replies := [], continues := true }
          else
            { events := ((get_speaker_status dev).2 ++ (set_input dev input).2).map .http,
              replies := [], continues := true }
      | .error _ =>
          { events := ((get_speaker_status dev).2 ++ (set_input dev input).2).map .http,
            replies := [], continues := true } := rfl

/-- Unfolding of the `GetStatus` arm of `run_step`. -/
theorem run_step_getStatus_eq (dev : Device) (b : Bool) :
    run_step dev b .GetStatus =
      match (get_speaker_status dev).1 with
      | .ok status =>
          { events := (get_speaker_status dev).2.map .http,
            replies := [status], continues := true }
      | .error _ =>
          { events := (get_speaker_status dev).2.map .http,
            replies := [{ power := "unknown", source := none }],
            continues := true } := rfl

/-- Outcome of one iteration of the background poller: the HTTP requests the
task itself issued against the device, the commands it submitted onto the
controller's command queue, and the statuses it published on the
status-update channel. -/
structure PollResult where
  device_requests : List Request
  queue_commands : List SpeakerCommand
  published : List SpeakerStatus
  deriving DecidableEq, Repr

/-- One iteration of the periodic polling task (`src/main.rs` lines 927-996).
The task creates a dedicated `reqwest::Client` and captures only the shared
discovered-speaker state and the update-channel sender `poll_tx_clone`; it
holds no command-queue sender, so it submits nothing onto the queue.  When a
speaker has been discovered it reads the power path directly; if that read
succeeds and parses, it reads the source path when (and only when) the power
decodes to "powerOn", treats any failure of the second read as
`source := none`, and publishes the resulting status; a power read that
fails or does not parse publishes nothing. -/
def poll_iteration (speaker_discovered : Bool) (dev : Device) : PollResult :=
  if speaker_discovered then
    match dev statusRequest with
    | .err _ =>
        { device_requests := [statusRequest], queue_commands := [], published := [] }
    | .ok power_json =>
        if decodePower power_json = "powerOn" then
          match dev sourceRequest with
          | .err _ =>
              { device_requests := [statusRequest, sourceRequest],
                queue_commands := [],
                published := [{ power := decodePower power_json, source := none }] }
          | .ok source_json =>
              { device_requests := [statusRequest, sourceRequest],
                queue_commands := [],
                published := [{ power := decodePower power_json, source := InputSource.from_kef_source (decodeSourceStr source_json) }] }
        else
          { device_requests := [statusRequest], queue_commands := [],
            published := [{ power := decodePower power_json, source := none }] }
  else
    { device_requests := [], queue_commands := [], published := [] }

/-- Shape of a poll iteration when the direct power read fails. -/
theorem poll_iteration_of_err (dev : Device) (e : DcError)
    (hj : dev statusRequest = .err e) :
    poll_iteration true dev =
      { device_requests := [statusRequest], queue_commands := [],
        published := [] } := by
  unfold poll_iteration
  rw [hj]
  rfl

/-- Shape of a poll iteration when the direct power read succeeds. -/
theorem poll_iteration_of_ok (dev : Device) (j : Json)
    (hj : dev statusRequest = .ok j) :
    poll_iteration true dev =
      if decodePower j = "powerOn" then
        match dev sourceRequest with
        | .err _ =>
            { device_requests := [statusRequest, sourceRequest],
              queue_commands := [],
              published := [{ power := decodePower j, source := none }] }
        | .ok source_json =>
            { device_requests := [statusRequest, sourceRequest],
              queue_commands := [],
              published := [{ power := decodePower j, source := InputSource.from_kef_source (decodeSourceStr source_json) }] }
      else
        { device_requests := [statusRequest], queue_commands := [],
          published := [{ power := decodePower j, source := none }] } := by
  unfold poll_iteration
  rw [hj]
  rfl

/-- An IP address as the mDNS library reports it: whether it is IPv4, and
its textual rendering (`to_string()`). -/
structure IpAddr where
  is_ipv4 : Bool
  text : String
  deriving DecidableEq, Repr

/-- The payload of an `mdns_sd::ServiceEvent::ServiceResolved` event: the
advertised addresses and port, and the optional text properties "name" and
"modelName". -/
structure ResolvedInfo where
  addresses : List IpAddr
  port : Nat
  name_prop : Option String
  model_prop : Option String
  deriving DecidableEq, Repr

/-- An event received on the mDNS scan channel; every variant other than
`ServiceResolved` is ignored by the discovery loop. -/
inductive ServiceEvent
  | ServiceResolved (info : ResolvedInfo)
  | OtherEvent
  deriving DecidableEq, Repr

/-- `SpeakerInfo` as constructed by `src/speaker.rs` (the spec's
SpeakerIdentity): address, port, name, model and the derived base URL. -/
structure SpeakerInfo where
  address : String
  port : Nat
  name : String
  model : String
  base_url : String
  deriving DecidableEq, Repr

/-- The identity built in the first-IPv4 branch of `discover_speaker`
(`src/speaker.rs` lines 49-71): a missing "name" / "modelName" property
falls back to the documented placeholder, and the base URL is formatted
from the address and port. -/
def speakerInfoOf (info : ResolvedInfo) (addr : IpAddr) : SpeakerInfo :=
  { address := addr.text
    port := info.port
    name := info.name_prop.getD "Unknown KEF Speaker"
    model := info.model_prop.getD "Unknown Model"
    base_url := "http://" ++ addr.text ++ ":" ++ toString info.port }

/-- Whether an event is a match for discovery: a resolved service carrying
at least one IPv4 address. -/
def is_match : ServiceEvent → Bool
  | .ServiceResolved info => (info.addresses.find? (fun a => a.is_ipv4)).isSome
  | .OtherEvent => false

/-- The receive loop of `discover_speaker` (`src/speaker.rs` lines 44-93):
events are consumed until a resolved service with an IPv4 address arrives —
then the receiver is dropped, the daemon is shut down (the returned flag)
and the loop breaks — or until the channel closes.  A resolved service
without an IPv4 address leaves `speaker_info` unset and the loop goes on. -/
def discoverLoop : List ServiceEvent → Option SpeakerInfo × Bool
  | [] => (none, false)
  | .ServiceResolved info :: rest =>
      match info.addresses.find? (fun a => a.is_ipv4) with
      | some addr => (some (speakerInfoOf info addr), true)
      | none => discoverLoop rest
  | .OtherEvent :: rest => discoverLoop rest

/-- `SpeakerController::discover_speaker` (`src/speaker.rs` lines 24-95).
`daemon_ok` models `ServiceDaemon::new()` succeeding and `browse_ok` models
`mdns.browse(..)` succeeding; either failure returns `None` before any event
is consumed.  `events` is the sequence received before the channel closes. -/
def discover_speaker (daemon_ok browse_ok : Bool) (events : List ServiceEvent) :
    Option SpeakerInfo × Bool :=
  if daemon_ok then
    if browse_ok then discoverLoop events
    else (none, false)
  else (none, false)

/-- If the defaulted power decode yields the sentinel "unknown", the decoded
JSON either had no string at `[0].kefSpeakerStatus` or that string was
literally "unknown". -/
theorem decodePower_unknown_cases (j : Json) (h : decodePower j = "unknown") :
    ((j.index 0).key "kefSpeakerStatus").as_str = none ∨
    ((j.index 0).key "kefSpeakerStatus").as_str = some "unknown" := by
  unfold decodePower at h
  cases hc : ((j.index 0).key "kefSpeakerStatus").as_str with
  | none => exact Or.inl rfl
  | some s =>
      rw [hc] at h
      simp only [Option.getD_some] at h
      subst h
      exact Or.inr rfl

/-- A scan stream none of whose events is a match leaves the loop with no
identity and no explicit teardown. -/
theorem discoverLoop_no_match (events : List ServiceEvent)
    (h : ∀ e ∈ events, is_match e = false) :
    discoverLoop events = (none, false) := by
  induction events with
  | nil => rfl
  | cons e rest ih =>
      cases e with
      | OtherEvent => exact ih (fun e he => h e (List.mem_cons_of_mem _ he))
      | ServiceResolved info =>
          have hm := h _ (List.mem_cons_self _ _)
          have heq : discoverLoop (ServiceEvent.ServiceResolved info :: rest) =
              match info.addresses.find? (fun a => a.is_ipv4) with
              | some addr => (some (speakerInfoOf info addr), true)
              | none => discoverLoop rest := rfl
          cases hf : info.addresses.find? (fun a => a.is_ipv4) with
          | some addr => simp [is_match, hf] at hm
          | none =>
              rw [heq, hf]
              exact ih (fun e he => h e (List.mem_cons_of_mem _ he))

/-- Any identity the loop returns comes from a resolved event of the stream
with an IPv4 address, built by `speakerInfoOf`, and the scan was torn down. -/
theorem discoverLoop_some (events : List ServiceEvent) :
    ∀ si, (discoverLoop events).1 = some si →
      (discoverLoop events).2 = true ∧
      ∃ info addr, ServiceEvent.ServiceResolved info ∈ events ∧
        info.addresses.find? (fun a => a.is_ipv4) = some addr ∧
        si = speakerInfoOf info addr := by
  induction events with
  | nil => intro si h; exact Option.noConfusion h
  | cons e rest ih =>
      intro si h
      cases e with
      | OtherEvent =>
          obtain ⟨ht, info, addr, hmem, hf, hsi⟩ := ih si h
          exact ⟨ht, info, addr, List.mem_cons_of_mem _ hmem, hf, hsi⟩
      | ServiceResolved info =>
          have heq : discoverLoop (ServiceEvent.ServiceResolved info :: rest) =
              match info.addresses.find? (fun a => a.is_ipv4) with
              | some addr => (some (speakerInfoOf info addr), true)
              | none => discoverLoop rest := rfl
          cases hf : info.addresses.find? (fun a => a.is_ipv4) with
          | some addr =>
              rw [heq, hf] at h
              have hsi : speakerInfoOf info addr = si := by simpa using h
              rw [heq, hf]
              exact ⟨rfl, info, addr, List.mem_cons_self _ _, hf, hsi.symm⟩
          | none =>
              rw [heq, hf] at h
              obtain ⟨ht, info', addr, hmem, hf', hsi⟩ := ih si h
              rw [heq, hf]
              exact ⟨ht, info', addr, List.mem_cons_of_mem _ hmem, hf', hsi⟩

end Qaf

namespace Qaf

/-- C5: Input Mapping round-trips: `from_kef_source (to_kef_source v) = some v`
for every variant; every wire string outside the known identifier set maps to
`none`; and `to_kef_source` lands in the known identifier set (it is total on
the enumeration by construction). -/
theorem input_mapping_round_trip :
    (∀ v : InputSource, InputSource.from_kef_source v.to_kef_source = some v) ∧
    (∀ s : String, s ∉ knownKefSources → InputSource.from_kef_source s = none) ∧
    (∀ v : InputSource, v.to_kef_source ∈ knownKefSources) := by
  refine ⟨?_, ?_, ?_⟩
  · intro v; cases v <;> rfl
  · intro s hs
    simp only [knownKefSources, List.mem_cons, List.not_mem_nil, or_false, not_or] at hs
    obtain ⟨h1, h2, h3, h4⟩ := hs
    simp [InputSource.from_kef_source, h1, h2, h3, h4]
  · intro v; cases v <;> simp [InputSource.to_kef_source, knownKefSources]

/-- Witness for C5: the round-trip theorem applied at the concrete variant
`USB` and at the concrete unknown wire string "optical". -/
theorem input_mapping_round_trip_witness :
    InputSource.from_kef_source (InputSource.to_kef_source .USB) = some .USB ∧
    InputSource.from_kef_source "optical" = none :=
  ⟨input_mapping_round_trip.1 .USB,
   input_mapping_round_trip.2.1 "optical" (by decide)⟩

/-- C8: when the device answers the power-status read with kefSpeakerStatus
"powerOn" and the input-source read with kefPhysicalSource "wifi",
`get_speaker_status` returns power "powerOn" (PoweredOn) and source
`some WiFi`. -/
theorem get_status_powerOn_wifi_scenario :
    (get_speaker_status devPowerOnWifi).1 =
      .ok { power := "powerOn", source := some .WiFi } := by
  rfl

/-- C6: whenever the power read succeeds but decodes to anything other than
"powerOn", the returned status carries `source = none` and the request trace
is the single power read (no second, input-source request); moreover the
input-source read appears in the trace if and only if the decoded power is
"powerOn". -/
theorem get_status_non_powerOn_source_none (dev : Device) (j : Json)
    (hj : dev statusRequest = .ok j) :
    (decodePower j ≠ "powerOn" →
      (get_speaker_status dev).1 = .ok { power := decodePower j, source := none } ∧
      (get_speaker_status dev).2 = [statusRequest]) ∧
    (sourceRequest ∈ (get_speaker_status dev).2 ↔ decodePower j = "powerOn") := by
  rw [get_speaker_status_of_ok dev j hj]
  by_cases hp : decodePower j = "powerOn"
  · rw [if_pos hp]
    refine ⟨fun hne => absurd hp hne, ?_⟩
    cases dev sourceRequest <;> simp [hp]
  · rw [if_neg hp]
    refine ⟨fun _ => ⟨rfl, rfl⟩, ?_⟩
    simp only [List.mem_singleton]
    constructor
    · intro hmem; exact absurd hmem (by decide)
    · intro h; exact absurd h hp

/-- Witness for C6: on a device reporting standby, `get_speaker_status`
returns `{power := "standby", source := none}` after exactly one request. -/
theorem get_status_non_powerOn_source_none_witness :
    (get_speaker_status devStandby).1 = .ok { power := "standby", source := none } ∧
    (get_speaker_status devStandby).2 = [statusRequest] := by
  have h := get_status_non_powerOn_source_none devStandby
    (.arr [.obj [("kefSpeakerStatus", .str "standby")]]) rfl
  exact h.1 (by decide)

/-- Counterexample to C3: a response that succeeds at the HTTP and JSON layer
but carries no `kefSpeakerStatus` key (`[{}]`) makes `get_speaker_status`
return SUCCESSFULLY with the sentinel power "unknown" — the claim that the
Unknown power is never contained in a successfully returned status is false. -/
theorem get_status_unknown_in_success_counterexample :
    (get_speaker_status devMissingPowerKey).1 =
      .ok { power := "unknown", source := none } := by
  rfl

/-- C3 amended: `get_speaker_status` surfaces every HTTP transport failure and
every JSON-parse failure of a request it issues as an explicit error; but a
response that parses as JSON while lacking a string at `[0].kefSpeakerStatus`
is not an error: it produces a successful status whose power is the sentinel
"unknown".  A successful status carries the decoded power of the power read,
and carries "unknown" only when that read had no such string or the device
itself sent the literal string "unknown". -/
theorem get_status_error_propagation (dev : Device) :
    (∀ e, dev statusRequest = .err e → (get_speaker_status dev).1 = .error e) ∧
    (∀ j e, dev statusRequest = .ok j → decodePower j = "powerOn" →
      dev sourceRequest = .err e → (get_speaker_status dev).1 = .error e) ∧
    (∀ st, (get_speaker_status dev).1 = .ok st →
      ∃ j, dev statusRequest = .ok j ∧ st.power = decodePower j ∧
        (st.power = "unknown" →
          ((j.index 0).key "kefSpeakerStatus").as_str = none ∨
          ((j.index 0).key "kefSpeakerStatus").as_str = some "unknown")) := by
  refine ⟨fun e he => by rw [get_speaker_status_of_err dev e he], ?_, ?_⟩
  · intro j e hj hp hs
    rw [get_speaker_status_of_ok dev j hj, if_pos hp, hs]
  · intro st hst
    cases hj : dev statusRequest with
    | err e =>
        rw [get_speaker_status_of_err dev e hj] at hst
        exact absurd hst (by simp)
    | ok j =>
        refine ⟨j, rfl, ?_⟩
        rw [get_speaker_status_of_ok dev j hj] at hst
        by_cases hp : decodePower j = "powerOn"
        · rw [if_pos hp] at hst
          cases hs : dev sourceRequest with
          | err e =>
              rw [hs] at hst
              exact absurd hst (by simp)
          | ok sj =>
              rw [hs] at hst
              injection hst with h
              subst h
              exact ⟨rfl, fun hu => decodePower_unknown_cases j hu⟩
        · rw [if_neg hp] at hst
          injection hst with h
          subst h
          exact ⟨rfl, fun hu => decodePower_unknown_cases j hu⟩

/-- Witness for the amended C3: on a device whose transport always fails, the
transport error is surfaced by `get_speaker_status`. -/
theorem get_status_error_propagation_witness :
    (get_speaker_status devAllTransportFail).1 = .error .transport :=
  (get_status_error_propagation devAllTransportFail).1 .transport rfl

/-- C9: every write operation issues exactly one `setData` request to the
input-source settings path carrying the envelope
`{"type": "kefPhysicalSource", "kefPhysicalSource": v}`, with `v` the mapped
wire string for `set_input` and the fixed sentinels "powerOn" / "standby" for
`power_on` / `power_off`; a response succeeds as soon as it parses as JSON —
its content is never interpreted. -/
theorem write_ops_shape (dev : Device) (input : InputSource) :
    ((set_input dev input).2 = [writeRequest input.to_kef_source] ∧
     (power_on dev).2 = [writeRequest "powerOn"] ∧
     (power_off dev).2 = [writeRequest "standby"]) ∧
    (∀ v : String, (writeRequest v).endpoint = "setData" ∧
      (writeRequest v).path = "settings:/kef/play/physicalSource" ∧
      (writeRequest v).value =
        some [("type", "kefPhysicalSource"), ("kefPhysicalSource", v)]) ∧
    ((∀ j : Json, dev (writeRequest input.to_kef_source) = .ok j →
        (set_input dev input).1 = .ok ()) ∧
     (∀ j : Json, dev (writeRequest "powerOn") = .ok j →
        (power_on dev).1 = .ok ()) ∧
     (∀ j : Json, dev (writeRequest "standby") = .ok j →
        (power_off dev).1 = .ok ())) := by
  refine ⟨⟨set_input_trace dev input, power_on_trace dev, power_off_trace dev⟩,
    fun v => ⟨rfl, rfl, rfl⟩, ?_, ?_, ?_⟩
  · intro j hj; unfold set_input; rw [hj]
  · intro j hj; unfold power_on; rw [hj]
  · intro j hj; unfold power_off; rw [hj]

/-- Witness for C9: on a device answering every request with JSON `null`,
`power_on` succeeds, and its request trace and envelope are as stated. -/
theorem write_ops_shape_witness :
    (power_on devAllOk).1 = .ok () ∧
    (power_on devAllOk).2 = [writeRequest "powerOn"] ∧
    (writeRequest "powerOn").value =
      some [("type", "kefPhysicalSource"), ("kefPhysicalSource", "powerOn")] :=
  ⟨(write_ops_shape devAllOk .USB).2.2.2.1 .null rfl,
   (write_ops_shape devAllOk .USB).1.2.1,
   ((write_ops_shape devAllOk .USB).2.1 "powerOn").2.2⟩

/-- C2: for every serviced `GetStatus` command, exactly one value is passed
to the reply channel: the real status when `get_speaker_status` succeeds and
the synthesized `{power := "unknown", source := none}` when it fails; the
loop always continues, and the whole step is independent of whether the
reply receiver has been dropped (the send result is discarded, and the
`oneshot` send is a total, non-blocking function). -/
theorem getStatus_reply_exactly_once (dev : Device) :
    (∀ b : Bool, run_step dev b .GetStatus = run_step dev true .GetStatus) ∧
    (run_step dev true .GetStatus).replies.length = 1 ∧
    (run_step dev true .GetStatus).continues = true ∧
    (∀ st, (get_speaker_status dev).1 = .ok st →
      (run_step dev true .GetStatus).replies = [st]) ∧
    (∀ e, (get_speaker_status dev).1 = .error e →
      (run_step dev true .GetStatus).replies =
        [{ power := "unknown", source := none }]) := by
  refine ⟨?_, ?_, ?_, ?_, ?_⟩
  · intro b
    rw [run_step_getStatus_eq, run_step_getStatus_eq]
  · rw [run_step_getStatus_eq]
    cases (get_speaker_status dev).1 <;> rfl
  · rw [run_step_getStatus_eq]
    cases (get_speaker_status dev).1 <;> rfl
  · intro st hst
    rw [run_step_getStatus_eq, hst]
  · intro e he
    rw [run_step_getStatus_eq, he]

/-- Witness for C2: on a device whose transport always fails, the single
reply of a `GetStatus` step is the synthesized unknown status. -/
theorem getStatus_reply_exactly_once_witness :
    (run_step devAllTransportFail true .GetStatus).replies =
      [{ power := "unknown", source := none }] :=
  (getStatus_reply_exactly_once devAllTransportFail).2.2.2.2 .transport rfl

/-- C4: when the status probe of a `SetInput` command succeeds and reports
"standby": if `power_on` succeeds, the step is exactly probe, `power_on`
write, 500 ms sleep, `set_input` write, in that order; if `power_on` fails,
the step stops after the `power_on` write (no `set_input`, no sleep) and the
loop still continues.  The probe issues only `getData` reads, so the writes
of the step are exactly the ones shown — in particular `set_input` is never
issued before `power_on` has completed. -/
theorem setInput_standby_sequence (dev : Device) (input : InputSource)
    (st : SpeakerStatus) (hst : (get_speaker_status dev).1 = .ok st)
    (hsb : st.power = "standby") :
    ((power_on dev).1 = .ok () →
      run_step dev true (.SetInput input) =
        { events := (get_speaker_status dev).2.map Ev.http
            ++ [Ev.http (writeRequest "powerOn"), Ev.sleepMs 500,
                Ev.http (writeRequest input.to_kef_source)],
          replies := [], continues := true }) ∧
    (∀ e, (power_on dev).1 = .error e →
      run_step dev true (.SetInput input) =
        { events := (get_speaker_status dev).2.map Ev.http
            ++ [Ev.http (writeRequest "powerOn")],
          replies := [], continues := true }) ∧
    (∀ r ∈ (get_speaker_status dev).2, r.endpoint = "getData") := by
  refine ⟨?_, ?_, get_speaker_status_trace_reads dev⟩
  · intro hpo
    rw [run_step_setInput_eq, hst]
    simp only [if_pos hsb]
    rw [hpo, power_on_trace, set_input_trace]
    simp [List.map_append]
  · intro e hpo
    rw [run_step_setInput_eq, hst]
    simp only [if_pos hsb]
    rw [hpo, power_on_trace]
    simp [List.map_append]

/-- Witness for C4: on a device reporting standby whose writes succeed, the
`SetInput USB` step is probe, power-on write, 500 ms sleep, input write. -/
theorem setInput_standby_sequence_witness :
    run_step devStandbyThenOk true (.SetInput .USB) =
      { events := [Ev.http statusRequest, Ev.http (writeRequest "powerOn"),
                   Ev.sleepMs 500, Ev.http (writeRequest "usb")],
        replies := [], continues := true } := by
  have h := (setInput_standby_sequence devStandbyThenOk .USB
      { power := "standby", source := none } rfl rfl).1 rfl
  rw [h]
  rfl

/-- C10: when the status probe of a `SetInput` command itself fails, the
standby check is skipped entirely: the step issues the probe reads and then
immediately the `set_input` write — no `power_on` write and no sleep occur. -/
theorem setInput_probe_error_skips_power_on (dev : Device) (input : InputSource)
    (e : DcError) (hst : (get_speaker_status dev).1 = .error e) :
    run_step dev true (.SetInput input) =
      { events := (get_speaker_status dev).2.map Ev.http
          ++ [Ev.http (writeRequest input.to_kef_source)],
        replies := [], continues := true } ∧
    Ev.http (writeRequest "powerOn") ∉ (run_step dev true (.SetInput input)).events ∧
    ∀ n, Ev.sleepMs n ∉ (run_step dev true (.SetInput input)).events := by
  have heq : run_step dev true (.SetInput input) =
      { events := (get_speaker_status dev).2.map Ev.http
          ++ [Ev.http (writeRequest input.to_kef_source)],
        replies := [], continues := true } := by
    rw [run_step_setInput_eq, hst, set_input_trace]
    simp [List.map_append]
  refine ⟨heq, ?_, ?_⟩
  · rw [heq]
    simp only [List.mem_append, List.mem_map, List.mem_singleton, not_or]
    constructor
    · rintro ⟨r, hr, hmap⟩
      have hre : r = writeRequest "powerOn" := by
        injection hmap
      have hget := get_speaker_status_trace_reads dev r hr
      rw [hre] at hget
      exact absurd hget (by decide)
    · intro hcon
      have hv : writeRequest "powerOn" = writeRequest input.to_kef_source := by
        injection hcon
      have hs : "powerOn" = input.to_kef_source := by
        have h2 := congrArg Request.value hv
        simpa [writeRequest, writeEnvelope] using h2
      cases input <;> exact absurd hs (by decide)
  · intro n
    rw [heq]
    simp only [List.mem_append, List.mem_map, List.mem_singleton, not_or]
    exact ⟨fun ⟨r, _, hmap⟩ => by injection hmap, fun hcon => by injection hcon⟩

/-- Witness for C10: on a device whose transport always fails, `SetInput USB`
issues the probe read and then directly the input write. -/
theorem setInput_probe_error_skips_power_on_witness :
    run_step devAllTransportFail true (.SetInput .USB) =
      { events := [Ev.http statusRequest, Ev.http (writeRequest "usb")],
        replies := [], continues := true } := by
  have h := (setInput_probe_error_skips_power_on devAllTransportFail .USB
      .transport rfl).1
  rw [h]
  rfl

/-- Counterexample to C1: with a speaker discovered and a responsive device,
one poll iteration issues HTTP requests of its own directly against the
device (the power read, then the source read) while submitting NO command —
in particular no `GetStatus` — onto the controller's command queue.  This
refutes the claim that the poller obtains status only by queueing a
`GetStatus` command and never performs a device HTTP interaction itself. -/
theorem poller_bypasses_queue_counterexample :
    (poll_iteration true devPowerOnWifi).device_requests =
      [statusRequest, sourceRequest] ∧
    (poll_iteration true devPowerOnWifi).device_requests ≠ [] ∧
    (poll_iteration true devPowerOnWifi).queue_commands = [] := by
  refine ⟨rfl, ?_, rfl⟩
  rw [show (poll_iteration true devPowerOnWifi).device_requests =
    [statusRequest, sourceRequest] from rfl]
  simp

/-- C1 amended: the Status Poller performs its own direct HTTP reads of the
device with a dedicated client and publishes the result on the update
channel; it submits no command onto the command queue (it holds no queue
sender), so background polling is not serialized through the controller
loop.  Before a speaker is discovered it does nothing; once discovered its
first direct request is the power read; a failed power read publishes
nothing, a successful one publishes exactly one status carrying the decoded
power. -/
theorem poller_direct_http (dev : Device) :
    poll_iteration false dev =
      { device_requests := [], queue_commands := [], published := [] } ∧
    (poll_iteration true dev).queue_commands = [] ∧
    (poll_iteration true dev).device_requests.head? = some statusRequest ∧
    (∀ e, dev statusRequest = .err e → (poll_iteration true dev).published = []) ∧
    (∀ j, dev statusRequest = .ok j →
      ∃ src, (poll_iteration true dev).published =
        [{ power := decodePower j, source := src }]) := by
  refine ⟨?_, ?_, ?_, ?_, ?_⟩
  · rfl
  · cases hj : dev statusRequest with
    | err e => rw [poll_iteration_of_err dev e hj]
    | ok j =>
        rw [poll_iteration_of_ok dev j hj]
        by_cases hp : decodePower j = "powerOn"
        · rw [if_pos hp]
          cases dev sourceRequest <;> rfl
        · rw [if_neg hp]
  · cases hj : dev statusRequest with
    | err e => rw [poll_iteration_of_err dev e hj]; rfl
    | ok j =>
        rw [poll_iteration_of_ok dev j hj]
        by_cases hp : decodePower j = "powerOn"
        · rw [if_pos hp]
          cases dev sourceRequest <;> rfl
        · rw [if_neg hp]; rfl
  · intro e he
    rw [poll_iteration_of_err dev e he]
  · intro j hj
    rw [poll_iteration_of_ok dev j hj]
    by_cases hp : decodePower j = "powerOn"
    · rw [if_pos hp]
      cases dev sourceRequest with
      | err e => exact ⟨none, rfl⟩
      | ok sj => exact ⟨_, rfl⟩
    · rw [if_neg hp]
      exact ⟨none, rfl⟩

/-- Witness for the amended C1: on a powered-on device, one poll iteration
submits no queue command and publishes one status with power "powerOn". -/
theorem poller_direct_http_witness :
    (poll_iteration true devPowerOnWifi).queue_commands = [] ∧
    ∃ src, (poll_iteration true devPowerOnWifi).published =
      [{ power := "powerOn", source := src }] :=
  ⟨(poller_direct_http devPowerOnWifi).2.1,
   (poller_direct_http devPowerOnWifi).2.2.2.2
     (.arr [.obj [("kefSpeakerStatus", .str "powerOn")]]) rfl⟩

/-- C7: if the discovery mechanism cannot start (daemon creation or browse
fails) or the scan stream closes without a matching advertisement carrying a
resolvable IPv4 address, discovery returns no identity at all; any returned
identity was built whole — by `speakerInfoOf`, with its base URL derived
from its address and port — from a resolved event of the stream with an IPv4
address, and the scan was explicitly torn down. -/
theorem discovery_no_partial_identity (daemon_ok browse_ok : Bool)
    (events : List ServiceEvent) :
    (daemon_ok = false → discover_speaker daemon_ok browse_ok events = (none, false)) ∧
    (browse_ok = false → discover_speaker daemon_ok browse_ok events = (none, false)) ∧
    ((∀ e ∈ events, is_match e = false) →
      (discover_speaker daemon_ok browse_ok events).1 = none) ∧
    (∀ si, (discover_speaker daemon_ok browse_ok events).1 = some si →
      (discover_speaker daemon_ok browse_ok events).2 = true ∧
      si.base_url = "http://" ++ si.address ++ ":" ++ toString si.port ∧
      ∃ info addr, ServiceEvent.ServiceResolved info ∈ events ∧
        info.addresses.find? (fun a => a.is_ipv4) = some addr ∧
        si = speakerInfoOf info addr) := by
  refine ⟨?_, ?_, ?_, ?_⟩
  · intro h; subst h; rfl
  · intro h; subst h; cases daemon_ok <;> rfl
  · intro h
    cases daemon_ok with
    | false => rfl
    | true =>
        cases browse_ok with
        | false => rfl
        | true =>
            show (discoverLoop events).1 = none
            rw [discoverLoop_no_match events h]
  · intro si h
    cases daemon_ok with
    | false => exact Option.noConfusion h
    | true =>
        cases browse_ok with
        | false => exact Option.noConfusion h
        | true =>
            obtain ⟨ht, info, addr, hmem, hf, hsi⟩ := discoverLoop_some events si h
            refine ⟨ht, ?_, info, addr, hmem, hf, hsi⟩
            rw [hsi]
            rfl

/-- Witness for C7: a stream whose only events are a non-resolved event and a
resolution carrying only a non-IPv4 address yields no identity; a stream
resolving an IPv4 address yields a torn-down scan. -/
theorem discovery_no_partial_identity_witness :
    (discover_speaker true true
      [ServiceEvent.OtherEvent,
       ServiceEvent.ServiceResolved
         { addresses := [{ is_ipv4 := false, text := "fe80::1" }],
           port := 80, name_prop := none, model_prop := none }]).1 = none ∧
    (discover_speaker true true
      [ServiceEvent.ServiceResolved
         { addresses := [{ is_ipv4 := true, text := "10.0.0.7" }],
           port := 80, name_prop := some "LS50", model_prop := none }]).2 = true :=
  ⟨(discovery_no_partial_identity true true _).2.2.1 (by decide),
   ((discovery_no_partial_identity true true
      [ServiceEvent.ServiceResolved
         { addresses := [{ is_ipv4 := true, text := "10.0.0.7" }],
           port := 80, name_prop := some "LS50", model_prop := none }]).2.2.2
     { address := "10.0.0.7", port := 80, name := "LS50",
       model := "Unknown Model", base_url := "http://10.0.0.7:80" } (by rfl)).1⟩

end Qaf
